import Mathlib

/-
Verification of the sessh Python SDK client (src/sessh/client.py) against its
natural-language specification. The client shells out to a `sessh` binary; we
model the observable behaviour of each method: the argument vector and child
environment handed to the spawned process, whether output is captured, and how
the process result (exit code, stdout, stderr) is turned into either a parsed
JSON value or a raised RuntimeError.
-/

set_option autoImplicit false

namespace Sessh

/-! ## Environment model (Python dict of strings, as an association list) -/

abbrev Env := List (String × String)

/-- Lookup of a key, first binding wins (Python dict has unique keys). -/
def envGet (e : Env) (k : String) : Option String :=
  match e with
  | [] => none
  | (k1, v1) :: t => if k1 = k then some v1 else envGet t k

/-- `d[k] = v` on a Python dict: overwrite the binding if present, else add it. -/
def envSet (e : Env) (k v : String) : Env :=
  match e with
  | [] => [(k, v)]
  | (k1, v1) :: t => if k1 = k then (k, v) :: t else (k1, v1) :: envSet t k v

/-- `os.environ.copy()`: the child environment is built on a copy, so the
    caller's own environment is never touched. -/
def envCopy (e : Env) : Env := e

/-- Python truthiness of an optional string: `None` and `""` are falsy. -/
def truthyStr : Option String → Option String
  | some s => if s = "" then none else some s
  | none => none

/-- `if v: env[k] = v` — set the key only when the optional value is truthy. -/
def envSetTruthy (e : Env) (k : String) (v : Option String) : Env :=
  match truthyStr v with
  | some s => envSet e k s
  | none => e

/-! ## String containment (for "the message contains the stderr text") -/

def listHasPre : List Char → List Char → Bool
  | [], _ => true
  | _ :: _, [] => false
  | a :: s, b :: t => a = b && listHasPre s t

def listHasSub (needle hay : List Char) : Bool :=
  match hay with
  | [] => listHasPre needle []
  | c :: t => listHasPre needle (c :: t) || listHasSub needle t

/-- `needle in hay` for Python strings. -/
def strContains (hay needle : String) : Bool :=
  listHasSub needle.data hay.data

/-! ## Model of `json.loads`

A recursive-descent JSON parser over the character list, with a fuel bound
(generous, only concrete inputs are ever evaluated). It accepts exactly one
JSON value surrounded by optional whitespace, as Python's strict
`json.loads` does, and rejects the empty string. -/

inductive Json where
  | null
  | bool (b : Bool)
  | num (lit : String)
  | str (s : String)
  | arr (elems : List Json)
  | obj (members : List (String × Json))

def jsonWs (c : Char) : Bool :=
  c = ' ' || c = '\t' || c = '\n' || c = '\r'

def skipWs : List Char → List Char
  | [] => []
  | c :: t => if jsonWs c then skipWs t else c :: t

def hexVal (c : Char) : Option Nat :=
  if '0' ≤ c ∧ c ≤ '9' then some (c.toNat - 48)
  else if 'a' ≤ c ∧ c ≤ 'f' then some (c.toNat - 87)
  else if 'A' ≤ c ∧ c ≤ 'F' then some (c.toNat - 55)
  else none

/-- Body of a JSON string after the opening quote: returns the decoded
    characters and the remainder after the closing quote. -/
def pStringChars : List Char → Option (List Char × List Char)
  | [] => none
  | '"' :: t => some ([], t)
  | '\\' :: e :: t =>
    match e with
    | '"' => (pStringChars t).map (fun r => ('"' :: r.1, r.2))
    | '\\' => (pStringChars t).map (fun r => ('\\' :: r.1, r.2))
    | '/' => (pStringChars t).map (fun r => ('/' :: r.1, r.2))
    | 'b' => (pStringChars t).map (fun r => ('\x08' :: r.1, r.2))
    | 'f' => (pStringChars t).map (fun r => ('\x0c' :: r.1, r.2))
    | 'n' => (pStringChars t).map (fun r => ('\n' :: r.1, r.2))
    | 'r' => (pStringChars t).map (fun r => ('\r' :: r.1, r.2))
    | 't' => (pStringChars t).map (fun r => ('\t' :: r.1, r.2))
    | 'u' =>
      match t with
      | a :: b :: c :: d :: t2 =>
        match hexVal a, hexVal b, hexVal c, hexVal d with
        | some x, some y, some z, some w =>
          (pStringChars t2).map
            (fun r => (Char.ofNat (((x * 16 + y) * 16 + z) * 16 + w) :: r.1, r.2))
        | _, _, _, _ => none
      | _ => none
    | _ => none
  | c :: t =>
    if c.toNat < 32 then none
    else (pStringChars t).map (fun r => (c :: r.1, r.2))

/-- Maximal run of ASCII digits. -/
def pDigits : List Char → List Char × List Char
  | [] => ([], [])
  | c :: t =>
    if c.isDigit then
      let r := pDigits t
      (c :: r.1, r.2)
    else ([], c :: t)

/-- Integer part of a JSON number (strict: no leading zeros). -/
def pInt : List Char → Option (List Char × List Char)
  | [] => none
  | '0' :: t => some (['0'], t)
  | c :: t =>
    if c.isDigit then
      let r := pDigits t
      some (c :: r.1, r.2)
    else none

/-- Optional fraction part. -/
def pFrac : List Char → Option (List Char × List Char)
  | '.' :: t =>
    match pDigits t with
    | ([], _) => none
    | (d, r) => some ('.' :: d, r)
  | l => some ([], l)

/-- Optional exponent part. -/
def pExp : List Char → Option (List Char × List Char)
  | [] => some ([], [])
  | c :: t =>
    if c = 'e' ∨ c = 'E' then
      match t with
      | s :: t2 =>
        if s = '+' ∨ s = '-' then
          match pDigits t2 with
          | ([], _) => none
          | (d, r) => some (c :: s :: d, r)
        else
          match pDigits t with
          | ([], _) => none
          | (d, r) => some (c :: d, r)
      | [] => none
    else some ([], c :: t)

/-- JSON number literal, stored verbatim. -/
def pNum : List Char → Option (String × List Char)
  | '-' :: t =>
    match pInt t with
    | some (i, r) =>
      match pFrac r with
      | some (f, r2) =>
        match pExp r2 with
        | some (x, r3) => some (String.mk ('-' :: (i ++ f ++ x)), r3)
        | none => none
      | none => none
    | none => none
  | l =>
    match pInt l with
    | some (i, r) =>
      match pFrac r with
      | some (f, r2) =>
        match pExp r2 with
        | some (x, r3) => some (String.mk (i ++ f ++ x), r3)
        | none => none
      | none => none
    | none => none

inductive PMode where
  | val
  | arrItems
  | objMembers

inductive PRes where
  | v (j : Json)
  | vs (l : List Json)
  | ms (l : List (String × Json))

/-- One parser for values, array tails and object tails, structurally
    recursive on the fuel. -/
def parseJ : Nat → PMode → List Char → Option (PRes × List Char)
  | 0, _, _ => none
  | fuel + 1, .val, s =>
    match skipWs s with
    | 'n' :: 'u' :: 'l' :: 'l' :: t => some (.v .null, t)
    | 't' :: 'r' :: 'u' :: 'e' :: t => some (.v (.bool true), t)
    | 'f' :: 'a' :: 'l' :: 's' :: 'e' :: t => some (.v (.bool false), t)
    | '"' :: t =>
      match pStringChars t with
      | some (cs, r) => some (.v (.str (String.mk cs)), r)
      | none => none
    | '[' :: t =>
      match skipWs t with
      | ']' :: r => some (.v (.arr []), r)
      | t2 =>
        match parseJ fuel .arrItems t2 with
        | some (.vs xs, r) => some (.v (.arr xs), r)
        | _ => none
    | '\x7b' :: t =>
      match skipWs t with
      | '\x7d' :: r => some (.v (.obj []), r)
      | t2 =>
        match parseJ fuel .objMembers t2 with
        | some (.ms kvs, r) => some (.v (.obj kvs), r)
        | _ => none
    | l =>
      match pNum l with
      | some (nl, r) => some (.v (.num nl), r)
      | none => none
  | fuel + 1, .arrItems, s =>
    match parseJ fuel .val s with
    | some (.v x, r) =>
      match skipWs r with
      | ',' :: r2 =>
        match parseJ fuel .arrItems r2 with
        | some (.vs xs, r3) => some (.vs (x :: xs), r3)
        | _ => none
      | ']' :: r2 => some (.vs [x], r2)
      | _ => none
    | _ => none
  | fuel + 1, .objMembers, s =>
    match skipWs s with
    | '"' :: t =>
      match pStringChars t with
      | some (k, r) =>
        match skipWs r with
        | ':' :: r2 =>
          match parseJ fuel .val r2 with
          | some (.v x, r3) =>
            match skipWs r3 with
            | ',' :: r4 =>
              match parseJ fuel .objMembers r4 with
              | some (.ms kvs, r5) => some (.ms ((String.mk k, x) :: kvs), r5)
              | _ => none
            | '\x7d' :: r4 => some (.ms [(String.mk k, x)], r4)
            | _ => none
          | _ => none
        | _ => none
      | none => none
    | _ => none

/-- Model of Python `json.loads`: `some` on a single well-formed JSON document
    (with surrounding whitespace allowed), `none` where `json.loads` raises
    `JSONDecodeError`. In particular `json_loads "" = none`. -/
def json_loads (s : String) : Option Json :=
  match parseJ (2 * s.length + 2) .val s.data with
  | some (.v j, r) =>
    match skipWs r with
    | [] => some j
    | _ => none
  | _ => none

/-! ## The client (src/sessh/client.py) -/

/-- `SesshClient.__init__` stores these fields and never writes them again.
    `aliasName` models `self.alias` (`alias` is reserved in Lean). -/
structure SesshClient where
  aliasName : String
  host : String
  port : Option Int
  sessh_bin : String
  identity : Option String
  proxyjump : Option String

/-- `SesshClient.__init__`: `self.sessh_bin = sessh_bin or "sessh"`. -/
def mkSesshClient (aliasName host : String) (port : Option Int)
    (sessh_bin identity proxyjump : Option String) : SesshClient :=
  { aliasName := aliasName, host := host, port := port,
    sessh_bin :=
      match truthyStr sessh_bin with
      | some s => s
      | none => "sessh",
    identity := identity, proxyjump := proxyjump }

/-- Result of the spawned process (`subprocess.run` with `text=True`). -/
structure ProcResult where
  returncode : Int
  stdout : String
  stderr : String

/-- What `_run_sessh` does with the process result: return the parsed JSON,
    or raise a `RuntimeError` with the given message. -/
inductive RunOutcome where
  | ok (v : Json)
  | runtimeError (msg : String)

/-- Lines 62-70 of client.py: raise when the exit code is nonzero and stdout
    is empty (falsy); otherwise parse stdout as JSON, raising on parse
    failure. -/
def runSesshOutcome (cmd : String) (r : ProcResult) : RunOutcome :=
  if r.returncode ≠ 0 ∧ r.stdout = "" then
    .runtimeError ("sessh " ++ cmd ++ " failed: " ++
      (if r.stderr = "" then "exit code " ++ toString r.returncode else r.stderr))
  else
    match json_loads r.stdout with
    | some v => .ok v
    | none => .runtimeError ("Invalid JSON from sessh: " ++ r.stdout)

/-- Child environment of `_run_sessh`: a copy of `os.environ` with
    `SESSH_JSON` forced to `"1"` and `SESSH_IDENTITY` / `SESSH_PROXYJUMP`
    added when the corresponding field is truthy. -/
def jsonChildEnv (c : SesshClient) (environ : Env) : Env :=
  envSetTruthy
    (envSetTruthy (envSet (envCopy environ) "SESSH_JSON" "1")
      "SESSH_IDENTITY" c.identity)
    "SESSH_PROXYJUMP" c.proxyjump

/-- Child environment of `attach`: same, but without `SESSH_JSON`. -/
def attachChildEnv (c : SesshClient) (environ : Env) : Env :=
  envSetTruthy (envSetTruthy (envCopy environ) "SESSH_IDENTITY" c.identity)
    "SESSH_PROXYJUMP" c.proxyjump

/-- `if self.port: sessh_args.append(str(self.port))` — the port argument is
    present exactly when the port is truthy (not `None`, not `0`). -/
def portArgs : Option Int → List String
  | some p => if p = 0 then [] else [toString p]
  | none => []

/-- One spawned process: its argv, its environment, and whether stdout and
    stderr are captured (`capture_output=True`). -/
structure SpawnSpec where
  args : List String
  env : Env
  captureOutput : Bool

/-- Observable effect of one client method: the (unchanged) client object,
    the (unchanged) `os.environ` of the calling process, the spawned process,
    and the method's return/raise behaviour. -/
structure StepResult (α : Type) where
  client : SesshClient
  environ : Env
  spawn : SpawnSpec
  outcome : α

/-- `_run_sessh(cmd, *args)` given the result `r` of the spawned process. -/
def _run_sessh (c : SesshClient) (environ : Env) (cmd : String)
    (args : List String) (r : ProcResult) : StepResult RunOutcome :=
  { client := c
    environ := environ
    spawn :=
      { args := [c.sessh_bin, cmd, c.aliasName, c.host] ++ portArgs c.port ++ args
        env := jsonChildEnv c environ
        captureOutput := true }
    outcome := runSesshOutcome cmd r }

def openOp (c : SesshClient) (environ : Env) (r : ProcResult) :
    StepResult RunOutcome :=
  _run_sessh c environ "open" [] r

/-- `run(command)` appends the separator `"--"` and then the command. -/
def runOp (c : SesshClient) (environ : Env) (command : String)
    (r : ProcResult) : StepResult RunOutcome :=
  _run_sessh c environ "run" ["--", command] r

/-- `logs(lines)` appends `str(lines)`. -/
def logsOpWith (c : SesshClient) (environ : Env) (lines : Int)
    (r : ProcResult) : StepResult RunOutcome :=
  _run_sessh c environ "logs" [toString lines] r

/-- `logs()` with the default argument `lines=300`. -/
def logsOp (c : SesshClient) (environ : Env) (r : ProcResult) :
    StepResult RunOutcome :=
  logsOpWith c environ 300 r

def statusOp (c : SesshClient) (environ : Env) (r : ProcResult) :
    StepResult RunOutcome :=
  _run_sessh c environ "status" [] r

def closeOp (c : SesshClient) (environ : Env) (r : ProcResult) :
    StepResult RunOutcome :=
  _run_sessh c environ "close" [] r

/-- `attach()`: no `SESSH_JSON`, no `capture_output`, returns `None`. -/
def attachOp (c : SesshClient) (environ : Env) : StepResult (Option Json) :=
  { client := c
    environ := environ
    spawn :=
      { args := [c.sessh_bin, "attach", c.aliasName, c.host] ++ portArgs c.port
        env := attachChildEnv c environ
        captureOutput := false }
    outcome := none }

/-! ## Completion-marker protocol (engine side)

The session engine invoked by this client is not part of the repository
source tree; its completion protocol is modelled from the specification. -/

/-- Modelled from the spec: the engine's test for the completion-marker line
    (CompletionProtocol, sections 4.3 and 8 of the spec; the engine itself is
    not under src/). A captured line is the real marker exactly when it
    starts with the marker token at the start of its own line and the token
    is immediately followed by the expected digit pattern (one or more
    digits, the exit status) and nothing else. -/
def lineIsMarker (marker line : String) : Bool :=
  listHasPre marker.data line.data &&
    (let rest := line.data.drop marker.data.length
     !rest.isEmpty && rest.all Char.isDigit)

/-- Decimal value of a digit string (the exit status after the marker). -/
def digitsVal (l : List Char) : Nat :=
  l.foldl (fun a c => 10 * a + (c.toNat - 48)) 0

/-- Modelled from the spec: scan the captured lines for the first real
    marker line; on a hit return the lines before it (the command's output,
    marker line stripped) and the exit status; otherwise keep waiting
    (`none`). -/
def findCompletion (marker : String) (lines : List String) :
    Option (List String × Nat) :=
  match lines with
  | [] => none
  | l :: t =>
    if lineIsMarker marker l then
      some ([], digitsVal (l.data.drop marker.data.length))
    else
      match findCompletion marker t with
      | some (out, code) => some (l :: out, code)
      | none => none

/-! ## Environment lemmas -/

theorem envGet_envSet_same (e : Env) (k v : String) :
    envGet (envSet e k v) k = some v := by
  induction e with
  | nil => simp [envSet, envGet]
  | cons hd t ih =>
    obtain ⟨k1, v1⟩ := hd
    by_cases hk : k1 = k
    · simp [envSet, envGet, hk]
    · simp [envSet, envGet, hk, ih]

theorem envGet_envSet_other (e : Env) (k k2 v : String) (h : k ≠ k2) :
    envGet (envSet e k v) k2 = envGet e k2 := by
  induction e with
  | nil => simp [envSet, envGet, h]
  | cons hd t ih =>
    obtain ⟨k1, v1⟩ := hd
    by_cases hk : k1 = k
    · simp [envSet, envGet, hk, h]
    · simp [envSet, envGet, hk, ih]

theorem envGet_envSetTruthy_other (e : Env) (k k2 : String) (v : Option String)
    (h : k ≠ k2) : envGet (envSetTruthy e k v) k2 = envGet e k2 := by
  unfold envSetTruthy
  cases truthyStr v with
  | none => rfl
  | some s => exact envGet_envSet_other e k k2 s h

theorem envGet_envSetTruthy_same (e : Env) (k : String) (v : Option String) :
    envGet (envSetTruthy e k v) k =
      match truthyStr v with
      | some s => some s
      | none => envGet e k := by
  unfold envSetTruthy
  cases truthyStr v with
  | none => rfl
  | some s => exact envGet_envSet_same e k s

theorem truthyStr_eq_some (o : Option String) (s : String) :
    truthyStr o = some s ↔ o = some s ∧ s ≠ "" := by
  cases o with
  | none => simp [truthyStr]
  | some t =>
    simp only [truthyStr]
    by_cases ht : t = ""
    · subst ht
      simp
      exact fun h => h.symm
    · rw [if_neg ht]
      simp only [Option.some_inj]
      constructor
      · intro h; exact ⟨h, h ▸ ht⟩
      · intro h; exact h.1

/-! ## String-containment lemmas -/

theorem listHasPre_refl (l : List Char) : listHasPre l l = true := by
  induction l with
  | nil => rfl
  | cons c t ih => simp [listHasPre, ih]

theorem listHasSub_self (l : List Char) : listHasSub l l = true := by
  cases l with
  | nil => rfl
  | cons c t => simp [listHasSub, listHasPre_refl]

theorem listHasSub_append (x n : List Char) : listHasSub n (x ++ n) = true := by
  induction x with
  | nil => simpa using listHasSub_self n
  | cons c t ih => simp [listHasSub, ih]

theorem strContains_empty_needle (hay : String) : strContains hay "" = true := by
  show listHasSub [] hay.data = true
  cases hay.data with
  | nil => rfl
  | cons c t => simp [listHasSub, listHasPre]

theorem strContains_append_right (a b : String) :
    strContains (a ++ b) b = true := by
  show listHasSub b.data (a.data ++ b.data) = true
  exact listHasSub_append a.data b.data

/-! ## Claims about the invocation argument vector -/

/-- Claim C3: every operation invokes the binary with arguments in exactly
    the order `<operation> <alias> <user@host> [port]` followed by the
    operation-specific arguments; `run(command)` appends the literal
    separator `"--"` and then the command string, and `logs(n)` appends the
    decimal rendering of `n`. -/
theorem invocation_argument_order (c : SesshClient) (e : Env) (r : ProcResult)
    (command : String) (n : Int) :
    (runOp c e command r).spawn.args
        = [c.sessh_bin, "run", c.aliasName, c.host] ++ portArgs c.port
            ++ ["--", command] ∧
    (logsOpWith c e n r).spawn.args
        = [c.sessh_bin, "logs", c.aliasName, c.host] ++ portArgs c.port
            ++ [toString n] ∧
    (openOp c e r).spawn.args
        = [c.sessh_bin, "open", c.aliasName, c.host] ++ portArgs c.port ∧
    (statusOp c e r).spawn.args
        = [c.sessh_bin, "status", c.aliasName, c.host] ++ portArgs c.port ∧
    (closeOp c e r).spawn.args
        = [c.sessh_bin, "close", c.aliasName, c.host] ++ portArgs c.port ∧
    (attachOp c e).spawn.args
        = [c.sessh_bin, "attach", c.aliasName, c.host] ++ portArgs c.port := by
  refine ⟨rfl, rfl, ?_, ?_, ?_, ?_⟩ <;>
    simp [openOp, statusOp, closeOp, attachOp, _run_sessh]

/-- Claim C6: the target configuration is immutable once constructed — every
    operation returns with the client object (hence the fields aliasName,
    host, port, sessh_bin, identity, proxyjump) unchanged. -/
theorem target_immutable (c : SesshClient) (e : Env) (r : ProcResult)
    (command : String) (n : Int) :
    (openOp c e r).client = c ∧ (runOp c e command r).client = c ∧
    (logsOpWith c e n r).client = c ∧ (logsOp c e r).client = c ∧
    (statusOp c e r).client = c ∧ (closeOp c e r).client = c ∧
    (attachOp c e).client = c :=
  ⟨rfl, rfl, rfl, rfl, rfl, rfl, rfl⟩

/-- Claim C8: no operation mutates the calling process's own environment:
    the child environment is built from a copy of `os.environ`, which is
    identical before and after every operation. -/
theorem environ_not_mutated (c : SesshClient) (e : Env) (r : ProcResult)
    (command : String) (n : Int) :
    (openOp c e r).environ = e ∧ (runOp c e command r).environ = e ∧
    (logsOpWith c e n r).environ = e ∧ (logsOp c e r).environ = e ∧
    (statusOp c e r).environ = e ∧ (closeOp c e r).environ = e ∧
    (attachOp c e).environ = e :=
  ⟨rfl, rfl, rfl, rfl, rfl, rfl, rfl⟩

/-- Claim C9: the port argument is appended exactly when the configured port
    is truthy; a client with `port=None` or `port=0` omits it entirely, for
    the JSON-mode operations and for attach alike. -/
theorem port_appended_iff_truthy (c : SesshClient) (e : Env) (r : ProcResult)
    (command : String) (n : Int) :
    (portArgs c.port = [] ↔ c.port = none ∨ c.port = some 0) ∧
    (c.port = none ∨ c.port = some 0 →
      (runOp c e command r).spawn.args
          = [c.sessh_bin, "run", c.aliasName, c.host, "--", command] ∧
      (logsOpWith c e n r).spawn.args
          = [c.sessh_bin, "logs", c.aliasName, c.host, toString n] ∧
      (openOp c e r).spawn.args = [c.sessh_bin, "open", c.aliasName, c.host] ∧
      (statusOp c e r).spawn.args
          = [c.sessh_bin, "status", c.aliasName, c.host] ∧
      (closeOp c e r).spawn.args = [c.sessh_bin, "close", c.aliasName, c.host] ∧
      (attachOp c e).spawn.args
          = [c.sessh_bin, "attach", c.aliasName, c.host]) := by
  have hiff : portArgs c.port = [] ↔ c.port = none ∨ c.port = some 0 := by
    cases hp : c.port with
    | none => simp [portArgs]
    | some p =>
      by_cases h0 : p = 0
      · subst h0; simp [portArgs]
      · simp [portArgs, h0]
  refine ⟨hiff, fun h => ?_⟩
  have hp : portArgs c.port = [] := hiff.mpr h
  refine ⟨?_, ?_, ?_, ?_, ?_, ?_⟩ <;>
    simp [runOp, logsOpWith, openOp, statusOp, closeOp, attachOp, _run_sessh, hp]

/-- Witness for C9 at a concrete client with `port=0`: the port argument is
    omitted from the attach invocation. -/
theorem port_appended_iff_truthy_witness :
    (attachOp ⟨"db", "root@h", some 0, "sessh", none, none⟩ []).spawn.args
      = ["sessh", "attach", "db", "root@h"] :=
  ((port_appended_iff_truthy ⟨"db", "root@h", some 0, "sessh", none, none⟩ []
      ⟨0, "", ""⟩ "ls" 300).2 (Or.inr rfl)).2.2.2.2.2

/-- Claim C10: `logs()` with no argument requests exactly 300 lines — it is
    the same invocation as `logs(300)`, appending the literal `"300"`. -/
theorem logs_default_300 (c : SesshClient) (e : Env) (r : ProcResult) :
    logsOp c e r = logsOpWith c e 300 r ∧
    (logsOp c e r).spawn.args
      = [c.sessh_bin, "logs", c.aliasName, c.host] ++ portArgs c.port
          ++ ["300"] := by
  constructor
  · rfl
  · have h300 : toString (300 : Int) = "300" := by decide
    simp [logsOp, logsOpWith, _run_sessh, h300]

/-! ## Claims about error handling (_run_sessh, lines 62-70) -/

/-- Claim C1 as stated is false on the code: with exit code 1, unparseable
    nonempty stdout `"garbage"` and stderr `"boom"`, the raised message is
    the invalid-JSON message built from stdout, and it does not contain the
    stderr text. -/
theorem nonzero_unparseable_counterexample :
    (1 : Int) ≠ 0 ∧ json_loads "garbage" = none ∧
    (runOp ⟨"db", "root@h", none, "sessh", none, none⟩ [] "ls"
        ⟨1, "garbage", "boom"⟩).outcome
      = .runtimeError "Invalid JSON from sessh: garbage" ∧
    strContains "Invalid JSON from sessh: garbage" "boom" = false :=
  ⟨by decide, rfl, rfl, by decide⟩

/-- Claim C1 (amended): for every JSON-mode operation, when the spawned
    process exits nonzero and its stdout does not parse as JSON, the client
    raises a RuntimeError; the message contains the stderr text when stdout
    is empty (falsy), and otherwise contains the unparseable stdout text. -/
theorem nonzero_unparseable_raises (cmd : String) (r : ProcResult)
    (hrc : r.returncode ≠ 0) (hjson : json_loads r.stdout = none) :
    ∃ msg, runSesshOutcome cmd r = .runtimeError msg ∧
      (if r.stdout = "" then strContains msg r.stderr
       else strContains msg r.stdout) = true := by
  unfold runSesshOutcome
  by_cases hout : r.stdout = ""
  · rw [if_pos ⟨hrc, hout⟩]
    refine ⟨_, rfl, ?_⟩
    rw [if_pos hout]
    by_cases hse : r.stderr = ""
    · rw [hse]
      exact strContains_empty_needle _
    · rw [if_neg hse]
      exact strContains_append_right _ _
  · rw [if_neg (fun hc => hout hc.2), hjson]
    refine ⟨_, rfl, ?_⟩
    rw [if_neg hout]
    exact strContains_append_right _ _

/-- Witness for the amended C1: exit 1, empty stdout, stderr `"boom"` — the
    raised message contains `"boom"`. -/
theorem nonzero_unparseable_raises_witness :
    (1 : Int) ≠ 0 ∧ json_loads "" = none ∧
    (∃ msg, runSesshOutcome "open" ⟨1, "", "boom"⟩ = .runtimeError msg ∧
      (if ("" : String) = "" then strContains msg "boom"
       else strContains msg "") = true) :=
  ⟨by decide, rfl,
   nonzero_unparseable_raises "open" ⟨1, "", "boom"⟩ (by decide) rfl⟩

/-- Claim C2: whenever the spawned process's stdout parses as JSON —
    regardless of the exit code, even for an `ok:false` payload — every
    JSON-mode operation returns the parsed object and raises nothing. -/
theorem parseable_stdout_returns_json (c : SesshClient) (e : Env)
    (command : String) (n : Int) (r : ProcResult) (v : Json)
    (h : json_loads r.stdout = some v) :
    (openOp c e r).outcome = .ok v ∧ (runOp c e command r).outcome = .ok v ∧
    (logsOpWith c e n r).outcome = .ok v ∧
    (statusOp c e r).outcome = .ok v ∧ (closeOp c e r).outcome = .ok v := by
  have hne : r.stdout ≠ "" := by
    intro he
    have h0 : json_loads "" = none := rfl
    rw [he, h0] at h
    exact Option.noConfusion h
  have core : ∀ cmd, runSesshOutcome cmd r = .ok v := by
    intro cmd
    unfold runSesshOutcome
    rw [if_neg (fun hc => hne hc.2), h]
  exact ⟨core "open", core "run", core "logs", core "status", core "close"⟩

/-- Witness for C2: an `ok:false` JSON document on stdout with exit code 2
    still comes back as a structured result. -/
theorem parseable_stdout_returns_json_witness :
    json_loads "\x7b\"ok\": false\x7d" = some (.obj [("ok", .bool false)]) ∧
    (statusOp ⟨"db", "root@h", none, "sessh", none, none⟩ []
        ⟨2, "\x7b\"ok\": false\x7d", "boom"⟩).outcome
      = .ok (.obj [("ok", .bool false)]) :=
  ⟨rfl,
   (parseable_stdout_returns_json ⟨"db", "root@h", none, "sessh", none, none⟩
      [] "x" 300 ⟨2, "\x7b\"ok\": false\x7d", "boom"⟩
      (.obj [("ok", .bool false)]) rfl).2.2.2.1⟩

/-! ## Claims about the child environments -/

/-- Claim C4: attach produces no structured result (it returns None), does
    not enable json-output-mode (it never sets SESSH_JSON: the child binding
    equals the ambient one, hence none when the ambient environment has
    none), and does not capture the child's stdout/stderr. -/
theorem attach_interactive (c : SesshClient) (e : Env) :
    (attachOp c e).outcome = none ∧
    (attachOp c e).spawn.captureOutput = false ∧
    envGet (attachOp c e).spawn.env "SESSH_JSON" = envGet e "SESSH_JSON" ∧
    (envGet e "SESSH_JSON" = none →
      envGet (attachOp c e).spawn.env "SESSH_JSON" = none) := by
  have henv : envGet (attachOp c e).spawn.env "SESSH_JSON"
      = envGet e "SESSH_JSON" := by
    show envGet (attachChildEnv c e) "SESSH_JSON" = envGet e "SESSH_JSON"
    unfold attachChildEnv
    rw [envGet_envSetTruthy_other _ _ _ _ (by decide),
        envGet_envSetTruthy_other _ _ _ _ (by decide)]
    rfl
  exact ⟨rfl, rfl, henv, fun h => henv.trans h⟩

/-- Witness for C4 at a concrete client and empty ambient environment. -/
theorem attach_interactive_witness :
    (attachOp ⟨"db", "root@h", none, "sessh", some "/id", none⟩ []).outcome
        = none ∧
    envGet (attachOp ⟨"db", "root@h", none, "sessh", some "/id", none⟩
        []).spawn.env "SESSH_JSON" = none := by
  have h := attach_interactive ⟨"db", "root@h", none, "sessh", some "/id", none⟩ []
  exact ⟨h.1, h.2.2.2 rfl⟩

/-- Claim C5: in the child environment of every JSON-mode operation,
    SESSH_JSON is "1"; and over an ambient environment that does not bind
    them, SESSH_IDENTITY is bound to a value s exactly when the client was
    configured with identity s (truthy, i.e. non-empty, per
    `if self.identity:`), and likewise SESSH_PROXYJUMP. -/
theorem json_mode_child_env (c : SesshClient) (e : Env)
    (hid : envGet e "SESSH_IDENTITY" = none)
    (hpj : envGet e "SESSH_PROXYJUMP" = none) :
    envGet (jsonChildEnv c e) "SESSH_JSON" = some "1" ∧
    (∀ s, envGet (jsonChildEnv c e) "SESSH_IDENTITY" = some s ↔
      c.identity = some s ∧ s ≠ "") ∧
    (∀ s, envGet (jsonChildEnv c e) "SESSH_PROXYJUMP" = some s ↔
      c.proxyjump = some s ∧ s ≠ "") := by
  have hvalI : envGet (jsonChildEnv c e) "SESSH_IDENTITY"
      = truthyStr c.identity := by
    unfold jsonChildEnv
    rw [envGet_envSetTruthy_other _ _ _ _ (by decide),
        envGet_envSetTruthy_same,
        envGet_envSet_other _ _ _ _ (by decide)]
    cases truthyStr c.identity with
    | some s => rfl
    | none => exact hid
  have hvalP : envGet (jsonChildEnv c e) "SESSH_PROXYJUMP"
      = truthyStr c.proxyjump := by
    unfold jsonChildEnv
    rw [envGet_envSetTruthy_same,
        envGet_envSetTruthy_other _ _ _ _ (by decide),
        envGet_envSet_other _ _ _ _ (by decide)]
    cases truthyStr c.proxyjump with
    | some s => rfl
    | none => exact hpj
  refine ⟨?_, ?_, ?_⟩
  · unfold jsonChildEnv
    rw [envGet_envSetTruthy_other _ _ _ _ (by decide),
        envGet_envSetTruthy_other _ _ _ _ (by decide)]
    exact envGet_envSet_same _ _ _
  · intro s
    rw [hvalI]
    exact truthyStr_eq_some _ s
  · intro s
    rw [hvalP]
    exact truthyStr_eq_some _ s

/-- Witness for C5 at a concrete client with an identity and no proxy jump,
    over the empty ambient environment. -/
theorem json_mode_child_env_witness :
    envGet (jsonChildEnv ⟨"db", "root@h", some 22, "sessh", some "/id", none⟩
        []) "SESSH_JSON" = some "1" ∧
    envGet (jsonChildEnv ⟨"db", "root@h", some 22, "sessh", some "/id", none⟩
        []) "SESSH_IDENTITY" = some "/id" := by
  have h := json_mode_child_env
    ⟨"db", "root@h", some 22, "sessh", some "/id", none⟩ [] rfl rfl
  exact ⟨h.1, (h.2.1 "/id").mpr ⟨rfl, by decide⟩⟩

/-! ## Claim about the completion-marker protocol (spec-modelled) -/

theorem findCompletion_no_marker (marker : String) (buf : List String)
    (h : ∀ l ∈ buf, lineIsMarker marker l = false) :
    findCompletion marker buf = none := by
  revert h
  induction buf with
  | nil => intro h; rfl
  | cons l t ih =>
    intro h
    have hl : lineIsMarker marker l = false := h l (List.mem_cons_self l t)
    have ht := ih (fun x hx => h x (List.mem_cons_of_mem l hx))
    simp [findCompletion, hl, ht]

theorem findCompletion_append (marker realLine : String) (buf : List String)
    (h : ∀ l ∈ buf, lineIsMarker marker l = false)
    (hreal : lineIsMarker marker realLine = true) :
    findCompletion marker (buf ++ [realLine])
      = some (buf, digitsVal (realLine.data.drop marker.data.length)) := by
  revert h
  induction buf with
  | nil =>
    intro h
    simp [findCompletion, hreal]
  | cons l t ih =>
    intro h
    have hl : lineIsMarker marker l = false := h l (List.mem_cons_self l t)
    have ht := ih (fun x hx => h x (List.mem_cons_of_mem l hx))
    simp [findCompletion, hl, ht]

/-- Claim C7 (spec-modelled engine): captured output that resembles but does
    not exactly match the marker pattern never triggers completion, and once
    the real, structurally-anchored marker line arrives, the returned output
    is exactly the preceding lines — the echoed marker-like text verbatim
    among them, with only the marker line itself stripped. -/
theorem marker_no_premature_completion (marker realLine : String)
    (buf : List String)
    (hbuf : ∀ l ∈ buf, lineIsMarker marker l = false)
    (hreal : lineIsMarker marker realLine = true) :
    findCompletion marker buf = none ∧
    ∃ code, findCompletion marker (buf ++ [realLine]) = some (buf, code) :=
  ⟨findCompletion_no_marker marker buf hbuf,
   digitsVal (realLine.data.drop marker.data.length),
   findCompletion_append marker realLine buf hbuf hreal⟩

/-- Witness for C7: a buffer full of marker-like lines (echoed command,
    indented marker, marker without digits, marker with non-digits, marker
    not at line start) does not complete; appending the real marker line
    returns that buffer verbatim. -/
theorem marker_no_premature_completion_witness :
    findCompletion "SESSH-DONE-7319-"
        ["echo SESSH-DONE-7319-0", " SESSH-DONE-7319-0", "SESSH-DONE-7319-",
         "SESSH-DONE-7319-x0", "xxSESSH-DONE-7319-0"] = none ∧
    ∃ code, findCompletion "SESSH-DONE-7319-"
        (["echo SESSH-DONE-7319-0", " SESSH-DONE-7319-0", "SESSH-DONE-7319-",
          "SESSH-DONE-7319-x0", "xxSESSH-DONE-7319-0"] ++ ["SESSH-DONE-7319-0"])
      = some (["echo SESSH-DONE-7319-0", " SESSH-DONE-7319-0",
          "SESSH-DONE-7319-", "SESSH-DONE-7319-x0", "xxSESSH-DONE-7319-0"],
          code) :=
  marker_no_premature_completion "SESSH-DONE-7319-" "SESSH-DONE-7319-0"
    ["echo SESSH-DONE-7319-0", " SESSH-DONE-7319-0", "SESSH-DONE-7319-",
     "SESSH-DONE-7319-x0", "xxSESSH-DONE-7319-0"] (by decide) (by decide)

end Sessh
